import Mathlib

/-!
Shallow embedding of the PRT-M2 geodetic dashboard core
(src/src/App.tsx and src/server.ts): the per-country data model,
the startup hydration and save protocol across remote store and
local cache, the EntityStore mutations with their local-cache
mirror, the topology identifier normalization and join, the
manual island markers, the statistics aggregation, and the
zero-viewport render guard.

JavaScript numbers are modelled as exact rationals; the remote
store and localStorage are explicit values threaded through the
functions that the React component reads and writes.
-/

namespace Geodetic

/-- One per-territory record, as used throughout App.tsx
(fields id, pays, reseauAncien, reseauActuel, itrf, epoque,
status). The status field is the string enum
COMPLET | SANS_EPOQUE | MANQUE_INFO | CANEVA_LOCAL | ACTIF. -/
structure CountryData where
  id : String
  pays : String
  reseauAncien : String
  reseauActuel : String
  itrf : String
  epoque : String
  status : String
deriving DecidableEq, Repr

/-- The six display labels for the table columns (TableHeaders). -/
structure TableHeaders where
  country : String
  formerNetwork : String
  currentNetwork : String
  itrf : String
  epoch : String
  status : String
deriving DecidableEq, Repr

/-- The wire payload of GET/POST /api/data: the server file holds
literal null for either slot until seeded (server.ts lines 15-20),
so both fields are optional. -/
structure Payload where
  countries : Option (List CountryData)
  headers : Option TableHeaders
deriving DecidableEq, Repr

/-- The two localStorage slots used by App.tsx: the string keys
geodetic_data and table_headers. An absent slot is none. -/
structure LocalCache where
  geodetic_data : Option (List CountryData)
  table_headers : Option TableHeaders
deriving DecidableEq, Repr

/-- Outcome of the GET /api/data fetch in fetchData (App.tsx lines
410-440): a 2xx response carrying a payload (response.ok true), a
non-2xx response (response.ok false, no exception thrown), or a
network-level failure (fetch rejects and control jumps to catch). -/
inductive RemoteRead where
  | ok (payload : Payload)
  | httpError
  | networkError
deriving DecidableEq, Repr

/-- Result of startup hydration: the in-memory state that the
component holds afterwards, plus the list of payloads successfully
written through to the remote store during hydration. -/
structure HydrationResult where
  countries : List CountryData
  headers : TableHeaders
  remoteWrites : List (List CountryData × TableHeaders)
deriving DecidableEq, Repr

/-- Startup hydration, translated from fetchData in App.tsx lines
410-440. defaults and defaultHeaders are the initial React state
(AFRICA_DATA and the literal header object). On a 2xx response the
countries slot, when non-null, is adopted; when null, the defaults
are written through to POST /api/data (postOk tells whether that
POST resolves; a rejection jumps to the catch block, which falls
back to localStorage). On a non-2xx response nothing in the try
block runs its branches and state is left as the defaults. On a
network failure the catch block reads both localStorage slots. -/
def fetchData (defaults : List CountryData) (defaultHeaders : TableHeaders)
    (remote : RemoteRead) (cache : LocalCache) (postOk : Bool) : HydrationResult :=
  match remote with
  | .ok payload =>
      match payload.countries with
      | some cs =>
          { countries := cs
            headers := payload.headers.getD defaultHeaders
            remoteWrites := [] }
      | none =>
          if postOk then
            { countries := defaults
              headers := payload.headers.getD defaultHeaders
              remoteWrites := [(defaults, defaultHeaders)] }
          else
            { countries := cache.geodetic_data.getD defaults
              headers := cache.table_headers.getD defaultHeaders
              remoteWrites := [] }
  | .httpError =>
      { countries := defaults
        headers := defaultHeaders
        remoteWrites := [] }
  | .networkError =>
      { countries := cache.geodetic_data.getD defaults
        headers := cache.table_headers.getD defaultHeaders
        remoteWrites := [] }

/-- Outcome of the POST /api/data fetch in handleSaveAll: a 2xx
response, a non-2xx response (response.ok false, which the handler
turns into a thrown Error), or a network-level rejection. -/
inductive PostResult where
  | ok
  | httpError
  | networkError
deriving DecidableEq, Repr

/-- The user-visible outcome of handleSaveAll: the success alert or
the failure alert. -/
inductive SaveOutcome where
  | success
  | failure
deriving DecidableEq, Repr

/-- Explicit save, translated from handleSaveAll in App.tsx lines
455-477. On response.ok both localStorage slots are refreshed and
the success alert is shown; otherwise the handler throws and the
catch block refreshes both localStorage slots and shows the failure
alert. -/
def handleSaveAll (countries : List CountryData) (headers : TableHeaders)
    (post : PostResult) : SaveOutcome × LocalCache :=
  match post with
  | .ok =>
      (.success, { geodetic_data := some countries, table_headers := some headers })
  | .httpError =>
      (.failure, { geodetic_data := some countries, table_headers := some headers })
  | .networkError =>
      (.failure, { geodetic_data := some countries, table_headers := some headers })

/-- The validation failure raised by handleSaveCountry when the
edited record lacks an id or a country name (the alert at App.tsx
line 527). -/
inductive ValidationError where
  | missingIdOrName
deriving DecidableEq, Repr

/-- The body of the upsert in handleSaveCountry (App.tsx lines
531-538): copy the collection, find the first index whose id
matches, replace there, else push at the end. -/
def upsertCountries (countries : List CountryData) (e : CountryData) :
    List CountryData :=
  match countries.findIdx? (fun c => c.id = e.id) with
  | some i => countries.set i e
  | none => countries ++ [e]

/-- Upsert with its validation guard, translated from
handleSaveCountry in App.tsx lines 525-546: a falsy (empty) id or
pays field aborts with the alert and no state update; otherwise
the collection is replaced by the upserted copy. -/
def handleSaveCountry (countries : List CountryData) (e : CountryData) :
    Except ValidationError (List CountryData) :=
  if e.id = "" ∨ e.pays = "" then .error .missingIdOrName
  else .ok (upsertCountries countries e)

/-- Deletion, translated from handleDeleteCountry in App.tsx lines
548-553: after the window.confirm dialog (confirmed), every record
whose id differs is kept. -/
def handleDeleteCountry (countries : List CountryData) (id : String)
    (confirmed : Bool) : List CountryData :=
  if confirmed then countries.filter (fun c => c.id ≠ id) else countries

/-- The component state that the localStorage mirror effects watch:
the countries collection and the header configuration. -/
structure AppState where
  countries : List CountryData
  headers : TableHeaders
deriving DecidableEq, Repr

/-- The three post-startup EntityStore mutations: saving an edited
record (handleSaveCountry), deleting a record (handleDeleteCountry,
with the confirm-dialog answer), and replacing the headers
wholesale (the Save Headers button, App.tsx line 1241). -/
inductive Mutation where
  | saveCountry (e : CountryData)
  | deleteCountry (id : String) (confirmed : Bool)
  | setHeaders (h : TableHeaders)
deriving DecidableEq, Repr

/-- Apply one mutation to the component state. A saveCountry that
fails validation returns early and leaves the state untouched. -/
def applyMutation (s : AppState) (m : Mutation) : AppState :=
  match m with
  | .saveCountry e =>
      match handleSaveCountry s.countries e with
      | .ok cs => { s with countries := cs }
      | .error _ => s
  | .deleteCountry id confirmed =>
      { s with countries := handleDeleteCountry s.countries id confirmed }
  | .setHeaders h => { s with headers := h }

/-- The two mirror effects of App.tsx lines 442-453: once isLoading
is false, any render with changed countries rewrites the
geodetic_data slot and any render with changed headers rewrites the
table_headers slot, so after a render both slots hold the current
snapshot. -/
def mirror (s : AppState) : LocalCache :=
  { geodetic_data := some s.countries, table_headers := some s.headers }

/-- One mutation followed by the re-render that fires the mirror
effects: the state advances and the cache is overwritten with the
new snapshot before the next mutation is processed. -/
def mutateStep (sc : AppState × LocalCache) (m : Mutation) :
    AppState × LocalCache :=
  let s := applyMutation sc.1 m
  (s, mirror s)

/-- A post-startup session: a sequence of mutations, each followed
by its mirror write, starting from a state whose snapshot the
mirror effects have already written (they fire once isLoading turns
false). -/
def runSession (s0 : AppState) (ms : List Mutation) : AppState × LocalCache :=
  ms.foldl mutateStep (s0, mirror s0)

/-- The static alias table idMap of App.tsx lines 108-121, mapping
alternate topology codes to the canonical 3-letter identifiers. -/
def idMapLookup (s : String) : Option String :=
  if s = "SDS" then some "SSD"
  else if s = "SS" then some "SSD"
  else if s = "SZL" then some "SWZ"
  else if s = "ZAR" then some "COD"
  else if s = "DRC" then some "COD"
  else if s = "KM" then some "COM"
  else if s = "MU" then some "MUS"
  else if s = "SC" then some "SYC"
  else if s = "CV" then some "CPV"
  else if s = "ST" then some "STP"
  else if s = "REU" then some "REU"
  else if s = "MYT" then some "COM"
  else none

/-- Identifier normalization: the expression idMap[f.id] || f.id of
App.tsx lines 125 and 129 — the alias table applied when it has the
key, identity otherwise (no table entry is an empty string, so the
JavaScript truthiness fallback is exactly the none case). -/
def normalizeId (s : String) : String :=
  (idMapLookup s).getD s

/-- A topology feature: the source-provided identifier plus
everything the object spread at App.tsx lines 127-130 carries along
unchanged (geometry, properties), abstracted as one field of an
arbitrary type. -/
structure GeoFeature (γ : Type) where
  id : String
  geometry : γ
deriving DecidableEq, Repr

/-- The topology filter-and-normalize of App.tsx lines 122-131:
keep the features whose normalized identifier occurs among the
record ids (africanIsoCodes), then rewrite each retained feature
identifier to the normalized form, spreading the rest unchanged. -/
def filterTopology {γ : Type} (feats : List (GeoFeature γ))
    (africanIsoCodes : List String) : List (GeoFeature γ) :=
  (feats.filter (fun f => africanIsoCodes.contains (normalizeId f.id))).map
    (fun f => { f with id := normalizeId f.id })

/-- The polygon fill switch of App.tsx lines 168-179: look up the
record whose id matches the feature id, return the per-status color
or the Slate-100 default when no record (or an unknown status)
matches. -/
def polygonFill (data : List CountryData) (fid : String) : String :=
  match data.find? (fun c => c.id = fid) with
  | none => "#f1f5f9"
  | some country =>
      if country.status = "COMPLET" then "#93c5fd"
      else if country.status = "SANS_EPOQUE" then "#fde047"
      else if country.status = "MANQUE_INFO" then "#fca5a5"
      else if country.status = "CANEVA_LOCAL" then "#c084fc"
      else if country.status = "ACTIF" then "#cbd5e1"
      else "#f1f5f9"

/-- The island-marker fill switch of App.tsx lines 233-244, written
out separately in the source with the same cases and the same
default. -/
def islandFill (data : List CountryData) (fid : String) : String :=
  match data.find? (fun c => c.id = fid) with
  | none => "#f1f5f9"
  | some country =>
      if country.status = "COMPLET" then "#93c5fd"
      else if country.status = "SANS_EPOQUE" then "#fde047"
      else if country.status = "MANQUE_INFO" then "#fca5a5"
      else if country.status = "CANEVA_LOCAL" then "#c084fc"
      else if country.status = "ACTIF" then "#cbd5e1"
      else "#f1f5f9"

/-- One entry of the manualIslands list: identifier, display name,
and the literal longitude/latitude pair. -/
structure IslandDef where
  id : String
  name : String
  coords : ℚ × ℚ
deriving DecidableEq, Repr

/-- The manualIslands literal of App.tsx lines 211-217. -/
def manualIslands : List IslandDef :=
  [ { id := "MUS", name := "Mauritius", coords := (57.5522, -20.3484) }
  , { id := "SYC", name := "Seychelles", coords := (55.4920, -4.6796) }
  , { id := "COM", name := "Comoros", coords := (43.3333, -11.6450) }
  , { id := "CPV", name := "Cape Verde", coords := (-23.0418, 16.0020) }
  , { id := "STP", name := "Sao Tome and Principe", coords := (6.7333, 0.1864) } ]

/-- A rendered island marker: the circle at the projected
coordinates with its status fill (App.tsx lines 229-252). -/
structure IslandMarker where
  id : String
  cx : ℚ
  cy : ℚ
  fill : String
deriving DecidableEq, Repr

/-- The island-marker pass of App.tsx lines 219-252: one marker per
manualIslands entry — the data join is against the literal list,
never against the topology — with cx/cy obtained by applying the
map projection to the literal coordinates and the fill obtained
from the island fill switch. -/
def islandMarkers (proj : ℚ × ℚ → ℚ × ℚ) (data : List CountryData) :
    List IslandMarker :=
  manualIslands.map (fun isl =>
    { id := isl.id
      cx := (proj isl.coords).1
      cy := (proj isl.coords).2
      fill := islandFill data isl.id })

/-- Rounding to one decimal place, the toFixed(1) of App.tsx line
313 modelled over exact rationals (the arguments here are
non-negative percentages, for which toFixed rounds half away from
zero, i.e. half up). -/
def roundTo1 (q : ℚ) : ℚ :=
  (⌊q * 10 + 1 / 2⌋ : ℚ) / 10

/-- One row of the statistics overlay: a status with its count and
its percentage. -/
structure StatRow where
  status : String
  count : Nat
  percentage : ℚ
deriving DecidableEq, Repr

/-- The four statuses enumerated in the statistics overlay of
App.tsx lines 306-311; ACTIF is not listed there. -/
def trackedStatuses : List String :=
  ["COMPLET", "SANS_EPOQUE", "MANQUE_INFO", "CANEVA_LOCAL"]

/-- The statistics aggregation of App.tsx lines 306-324: for each
tracked status, count = data.filter(status match).length and
percentage = (count / data.length * 100).toFixed(1) when the
collection is non-empty, else the literal 0. -/
def statRows (data : List CountryData) : List StatRow :=
  trackedStatuses.map (fun s =>
    let count := (data.filter (fun c => c.status = s)).length
    { status := s
      count := count
      percentage :=
        if data.length > 0 then
          roundTo1 ((count : ℚ) / (data.length : ℚ) * 100)
        else 0 })

/-- What one pass of the render effect draws into the svg group:
the country paths with their fills, the per-feature name labels,
and the island markers. -/
structure RenderOutput (γ : Type) where
  polygonPaths : List (GeoFeature γ × String)
  labels : List String
  markers : List IslandMarker
deriving DecidableEq, Repr

/-- The render effect of App.tsx lines 136-267, as a function of
the already-filtered topology (geoData, none until the topology
fetch resolves), the resolved viewport width/height of lines
142-143, the fitted projection, and the records. A none topology
returns before touching the svg (line 137), so nothing is drawn
this pass (none). With a topology present the svg is first cleared
(line 140); a zero width or height then returns at line 145 with
the svg left empty, and otherwise one path per feature (with the
polygon fill switch), one label per feature, and the island
markers are appended. -/
def renderMap {γ : Type} (geoData : Option (List (GeoFeature γ)))
    (width height : ℚ) (proj : ℚ × ℚ → ℚ × ℚ)
    (data : List CountryData) : Option (RenderOutput γ) :=
  match geoData with
  | none => none
  | some feats =>
      if width = 0 ∨ height = 0 then
        some { polygonPaths := [], labels := [], markers := [] }
      else
        some
          { polygonPaths := feats.map (fun f => (f, polygonFill data f.id))
            labels := feats.map (fun f => f.id)
            markers := islandMarkers proj data }

/-- A concrete record used to instantiate the theorems below. -/
def sampleSenegal : CountryData :=
  { id := "SEN", pays := "Senegal", reseauAncien := "Adindan"
    reseauActuel := "RRS", itrf := "ITRF2005", epoque := "2005.0"
    status := "MANQUE_INFO" }

/-- The same record after an edit that sets its status. -/
def sampleSenegalComplete : CountryData :=
  { sampleSenegal with status := "COMPLET" }

/-- A second concrete record with a different id. -/
def sampleGhana : CountryData :=
  { id := "GHA", pays := "Ghana", reseauAncien := "Leigon"
    reseauActuel := "GhRF", itrf := "ITRF2008", epoque := ""
    status := "COMPLET" }

/-- A concrete record whose id is empty, for the validation path. -/
def blankIdRecord : CountryData :=
  { id := "", pays := "Senegal", reseauAncien := ""
    reseauActuel := "", itrf := "", epoque := ""
    status := "MANQUE_INFO" }

/-- A concrete header configuration. -/
def sampleHeaders : TableHeaders :=
  { country := "Country", formerNetwork := "Former Network"
    currentNetwork := "Current Network", itrf := "ITRF"
    epoch := "Epoch", status := "Status" }

/-- Pushing past the first matching id: when the head does not
match, the upsert distributes over cons. -/
theorem upsertCountries_cons_of_ne (c : CountryData) (cs : List CountryData)
    (e : CountryData) (h : c.id ≠ e.id) :
    upsertCountries (c :: cs) e = c :: upsertCountries cs e := by
  unfold upsertCountries
  have hc : (fun x : CountryData => decide (x.id = e.id)) c = false := by
    simpa using h
  rw [show List.findIdx? (fun x : CountryData => decide (x.id = e.id)) (c :: cs)
        = if (fun x : CountryData => decide (x.id = e.id)) c then some 0
          else List.findIdx? (fun x : CountryData => decide (x.id = e.id)) cs 1
      from rfl, hc]
  simp only [Bool.false_eq_true, if_false, List.findIdx?_succ]
  cases cs.findIdx? (fun x : CountryData => decide (x.id = e.id)) with
  | none => rfl
  | some i => rfl

/-- When the head matches, the upsert replaces it in place. -/
theorem upsertCountries_cons_of_eq (c : CountryData) (cs : List CountryData)
    (e : CountryData) (h : c.id = e.id) :
    upsertCountries (c :: cs) e = e :: cs := by
  unfold upsertCountries
  rw [show List.findIdx? (fun x : CountryData => decide (x.id = e.id)) (c :: cs)
        = if (fun x : CountryData => decide (x.id = e.id)) c then some 0
          else List.findIdx? (fun x : CountryData => decide (x.id = e.id)) cs 1
      from rfl]
  simp [h]

/-- Under unique ids, filtering the upserted collection for the
upserted id yields exactly the new record. -/
theorem upsertCountries_filter (cs : List CountryData) (e : CountryData)
    (hnodup : (cs.map (fun c => c.id)).Nodup) :
    (upsertCountries cs e).filter (fun c => c.id = e.id) = [e] := by
  induction cs with
  | nil => simp [upsertCountries]
  | cons c rest ih =>
    rw [List.map_cons, List.nodup_cons] at hnodup
    by_cases hc : c.id = e.id
    · rw [upsertCountries_cons_of_eq c rest e hc]
      have hrest : rest.filter (fun x => x.id = e.id) = [] := by
        rw [List.filter_eq_nil_iff]
        intro x hx
        simp only [decide_eq_true_eq]
        intro hxe
        exact hnodup.1 (hc ▸ hxe ▸ List.mem_map_of_mem (fun y => y.id) hx)
      simp [List.filter_cons, hrest]
    · rw [upsertCountries_cons_of_ne c rest e hc]
      rw [List.filter_cons_of_neg (by simpa using hc)]
      exact ih hnodup.2

/-- C1 (amended): startup hydration follows the three-tier
precedence of fetchData. A 2xx remote read with a non-null
countries slot is adopted into memory with no remote write; a 2xx
read with a null countries slot keeps the built-in defaults in
memory and writes them through to the remote store (when that POST
resolves); a network-level read failure falls back to the local
cache when populated, else the defaults; a reachable remote
answering non-2xx leaves the defaults in memory without consulting
the cache and performs no write. -/
theorem fetchData_three_tier (defaults : List CountryData)
    (dh : TableHeaders) (cache : LocalCache) (p : Payload) (postOk : Bool) :
    (∀ cs, p.countries = some cs →
        (fetchData defaults dh (.ok p) cache postOk).countries = cs ∧
        (fetchData defaults dh (.ok p) cache postOk).remoteWrites = []) ∧
    (p.countries = none →
        (fetchData defaults dh (.ok p) cache true).countries = defaults ∧
        (fetchData defaults dh (.ok p) cache true).remoteWrites
          = [(defaults, dh)]) ∧
    ((fetchData defaults dh .networkError cache postOk).countries
        = cache.geodetic_data.getD defaults) ∧
    ((fetchData defaults dh .httpError cache postOk).countries = defaults ∧
      (fetchData defaults dh .httpError cache postOk).remoteWrites = []) := by
  refine ⟨?_, ?_, rfl, rfl, rfl⟩
  · intro cs hcs
    simp [fetchData, hcs]
  · intro hnone
    simp [fetchData, hnone]

/-- C1 witness: a populated remote payload is adopted verbatim. -/
theorem fetchData_three_tier_witness :
    (fetchData [sampleSenegal] sampleHeaders
        (.ok { countries := some [sampleGhana], headers := none })
        { geodetic_data := none, table_headers := none } true).countries
      = [sampleGhana] :=
  ((fetchData_three_tier [sampleSenegal] sampleHeaders
      { geodetic_data := none, table_headers := none }
      { countries := some [sampleGhana], headers := none } true).1
    [sampleGhana] rfl).1

/-- C1 counterexample: the claim reads "for every failed remote
read, the in-memory state equals the local cache payload when the
cache is populated". A non-2xx response is a failed remote read
(server.ts answers 500 when its file is unreadable), the cache
below is populated with the COMPLET record, yet hydration keeps
the built-in defaults in memory, which differ from the cached
payload. -/
theorem fetchData_httpError_keeps_defaults :
    (fetchData [sampleSenegal] sampleHeaders .httpError
        { geodetic_data := some [sampleSenegalComplete]
          table_headers := some sampleHeaders } true).countries
      = [sampleSenegal] ∧
    ([sampleSenegal] : List CountryData) ≠ [sampleSenegalComplete] :=
  ⟨rfl, by decide⟩

/-- C2: every explicit save refreshes both local-cache slots to the
attempted payload, whatever the remote write outcome, and reports
success exactly when the POST answered 2xx. -/
theorem handleSaveAll_cache_and_outcome (countries : List CountryData)
    (headers : TableHeaders) (post : PostResult) :
    ((handleSaveAll countries headers post).2
        = { geodetic_data := some countries
            table_headers := some headers }) ∧
    ((handleSaveAll countries headers post).1 = .success ↔ post = .ok) := by
  cases post <;> simp [handleSaveAll]

/-- C3: a post-startup session of mutations, each re-rendering and
firing the mirror effects, leaves the local cache holding exactly
the snapshot of the final state: the snapshot of the last mutation wins
and no mirror write is reordered past a later mutation. -/
theorem runSession_cache_eq_snapshot (s0 : AppState) (ms : List Mutation) :
    (runSession s0 ms).2 = mirror (runSession s0 ms).1 := by
  induction ms generalizing s0 with
  | nil => rfl
  | cons m rest ih =>
    simpa only [runSession, List.foldl_cons] using ih (applyMutation s0 m)

/-- C4: with unique record ids and a record with non-empty id and
name, handleSaveCountry accepts and upserts — replacing in place
(length preserved) when some entry carries the id, appending
otherwise — and querying the result for that id returns exactly the
new record. -/
theorem handleSaveCountry_upsert_query (countries : List CountryData)
    (e : CountryData) (hnodup : (countries.map (fun c => c.id)).Nodup)
    (hid : e.id ≠ "") (hname : e.pays ≠ "") :
    handleSaveCountry countries e = .ok (upsertCountries countries e) ∧
    ((∃ c ∈ countries, c.id = e.id) →
        (upsertCountries countries e).length = countries.length) ∧
    ((¬ ∃ c ∈ countries, c.id = e.id) →
        upsertCountries countries e = countries ++ [e]) ∧
    (upsertCountries countries e).filter (fun c => c.id = e.id) = [e] := by
  refine ⟨?_, ?_, ?_, upsertCountries_filter countries e hnodup⟩
  · simp [handleSaveCountry, hid, hname]
  · rintro ⟨c, hc, hce⟩
    rcases hfi : countries.findIdx? (fun x => x.id = e.id) with _ | i
    · exact absurd hce (by
        simpa using List.findIdx?_eq_none_iff.mp hfi c hc)
    · unfold upsertCountries
      rw [hfi]
      simp
  · intro hno
    unfold upsertCountries
    rw [List.findIdx?_eq_none_iff.mpr]
    intro x hx
    exact decide_eq_false (fun hxe => hno ⟨x, hx, hxe⟩)

/-- C4 witness: editing the SEN record replaces it and the query
returns the edited record alone. -/
theorem handleSaveCountry_upsert_query_witness :
    (upsertCountries [sampleSenegal] sampleSenegalComplete).filter
        (fun c => c.id = sampleSenegalComplete.id)
      = [sampleSenegalComplete] :=
  (handleSaveCountry_upsert_query [sampleSenegal] sampleSenegalComplete
      (by decide) (by decide) (by decide)).2.2.2

/-- C5: a record whose id or name is empty is rejected with the
validation error and no state update takes place: applying the
corresponding saveCountry mutation is the identity on the component
state. -/
theorem handleSaveCountry_validation (countries : List CountryData)
    (e : CountryData) (h : e.id = "" ∨ e.pays = "") :
    handleSaveCountry countries e = .error .missingIdOrName ∧
    ∀ s : AppState, applyMutation s (.saveCountry e) = s := by
  constructor
  · simp [handleSaveCountry, h]
  · intro s
    simp [applyMutation, handleSaveCountry, h]

/-- C5 witness: the blank-id record is rejected and mutates
nothing. -/
theorem handleSaveCountry_validation_witness :
    handleSaveCountry [sampleSenegal] blankIdRecord
        = .error .missingIdOrName ∧
    applyMutation { countries := [sampleSenegal], headers := sampleHeaders }
        (.saveCountry blankIdRecord)
      = { countries := [sampleSenegal], headers := sampleHeaders } :=
  ⟨(handleSaveCountry_validation [sampleSenegal] blankIdRecord (Or.inl rfl)).1,
   (handleSaveCountry_validation [sampleSenegal] blankIdRecord (Or.inl rfl)).2
     { countries := [sampleSenegal], headers := sampleHeaders }⟩

/-- C6: the retained render set contains exactly the topology
features whose normalized identifier occurs among the record ids:
every such feature appears with its identifier rewritten to the
canonical form and its geometry untouched, every retained feature
arises that way from a source feature, and the retained count
equals the count of matching source features. -/
theorem filterTopology_join (γ : Type) (feats : List (GeoFeature γ))
    (ids : List String) :
    (∀ g ∈ feats, normalizeId g.id ∈ ids →
        ({ id := normalizeId g.id, geometry := g.geometry } : GeoFeature γ)
          ∈ filterTopology feats ids) ∧
    (∀ f ∈ filterTopology feats ids, ∃ g ∈ feats,
        normalizeId g.id ∈ ids ∧ f.id = normalizeId g.id ∧
        f.geometry = g.geometry) ∧
    (filterTopology feats ids).length
      = (feats.filter (fun g => normalizeId g.id ∈ ids)).length := by
  refine ⟨?_, ?_, ?_⟩
  · intro g hg hmem
    simp only [filterTopology, List.mem_map, List.mem_filter]
    exact ⟨g, ⟨hg, by simpa using hmem⟩, rfl⟩
  · intro f hf
    simp only [filterTopology, List.mem_map, List.mem_filter] at hf
    obtain ⟨g, ⟨hg, hc⟩, rfl⟩ := hf
    exact ⟨g, hg, by simpa using hc, rfl, rfl⟩
  · simp only [filterTopology, List.length_map]
    congr 1
    apply List.filter_congr
    intro g _
    simp [List.elem_eq_mem]

/-- C6 witness: a feature carrying the alias code KM is retained
when COM is a record id, rewritten to COM with its geometry
intact. -/
theorem filterTopology_join_witness :
    ({ id := "COM", geometry := 7 } : GeoFeature Nat)
      ∈ filterTopology [{ id := "KM", geometry := 7 }] ["COM"] := by
  have h := (filterTopology_join Nat [{ id := "KM", geometry := 7 }]
      ["COM"]).1 { id := "KM", geometry := 7 } (by simp) (by decide)
  exact (by decide : normalizeId "KM" = "COM") ▸ h

/-- C7: the five manual island identifiers each yield exactly one
marker, regardless of records and topology (the marker pass is a
function of the literal island list only), positioned by applying
the shared projection to the literal coordinates; the island fill
switch coincides with the polygon fill switch everywhere,
including the default color when no record matches. -/
theorem islandMarkers_unique (proj : ℚ × ℚ → ℚ × ℚ)
    (data : List CountryData) :
    manualIslands.map (fun isl => isl.id)
        = ["MUS", "SYC", "COM", "CPV", "STP"] ∧
    (∀ isl ∈ manualIslands,
        (islandMarkers proj data).filter (fun m => m.id = isl.id)
          = [{ id := isl.id, cx := (proj isl.coords).1
               cy := (proj isl.coords).2
               fill := islandFill data isl.id }]) ∧
    (∀ fid, islandFill data fid = polygonFill data fid) ∧
    (∀ fid, data.find? (fun c => c.id = fid) = none →
        islandFill data fid = "#f1f5f9") := by
  refine ⟨by decide, ?_, fun fid => rfl, ?_⟩
  · intro isl hisl
    fin_cases hisl <;> simp [islandMarkers, manualIslands, List.filter]
  · intro fid h
    simp [islandFill, h]

/-- C7 witness: with no records, the Mauritius marker is the unique
MUS marker, sits at the projected literal coordinates (here under
the identity projection), and carries the default fill. -/
theorem islandMarkers_unique_witness :
    (islandMarkers (fun q => q) []).filter (fun m => m.id = "MUS")
      = [{ id := "MUS", cx := 57.5522, cy := -20.3484
           fill := "#f1f5f9" }] := by
  have hm : ({ id := "MUS", name := "Mauritius"
               coords := (57.5522, -20.3484) } : IslandDef)
      ∈ manualIslands := by
    unfold manualIslands
    exact List.Mem.head _
  have h := (islandMarkers_unique (fun q => q) []).2.1
      { id := "MUS", name := "Mauritius", coords := (57.5522, -20.3484) } hm
  simpa [islandFill] using h

/-- C8: the statistics overlay rows are exactly the four tracked
statuses (ACTIF excluded); each row counts the records holding its
status, with percentage count divided by the whole collection size
times 100 rounded to one decimal when the collection is non-empty;
the empty collection yields 0 for every count and every percentage
instead of a division fault. -/
theorem statRows_aggregate (data : List CountryData) :
    (statRows data).map (fun r => r.status)
        = ["COMPLET", "SANS_EPOQUE", "MANQUE_INFO", "CANEVA_LOCAL"] ∧
    "ACTIF" ∉ (statRows data).map (fun r => r.status) ∧
    (∀ r ∈ statRows data,
        r.count = (data.filter (fun c => c.status = r.status)).length ∧
        r.percentage =
          (if data.length > 0 then
            roundTo1 ((r.count : ℚ) / (data.length : ℚ) * 100)
          else 0)) ∧
    (∀ r ∈ statRows [], r.count = 0 ∧ r.percentage = 0) := by
  refine ⟨?_, ?_, ?_, by decide⟩
  · simp [statRows, trackedStatuses]
  · simp [statRows, trackedStatuses]
  · intro r hr
    simp only [statRows, List.mem_map] at hr
    obtain ⟨s, hs, rfl⟩ := hr
    exact ⟨rfl, rfl⟩

/-- C8 witness: over the empty collection the COMPLET row reports
count 0 and percentage 0. -/
theorem statRows_aggregate_witness :
    ({ status := "COMPLET", count := 0, percentage := 0 } : StatRow).count
        = 0 ∧
    ({ status := "COMPLET", count := 0, percentage := 0 } : StatRow).percentage
        = 0 :=
  (statRows_aggregate []).2.2.2
    { status := "COMPLET", count := 0, percentage := 0 } (by decide)

/-- C9: when the resolved viewport width or height is zero the
render pass clears the svg and draws nothing — no polygon paths,
no labels, no island markers — and with both non-zero it draws the
full geometry. -/
theorem renderMap_viewport_guard (γ : Type) (feats : List (GeoFeature γ))
    (width height : ℚ) (proj : ℚ × ℚ → ℚ × ℚ) (data : List CountryData) :
    ((width = 0 ∨ height = 0) →
        renderMap (some feats) width height proj data
          = some { polygonPaths := [], labels := [], markers := [] }) ∧
    (width ≠ 0 → height ≠ 0 →
        renderMap (some feats) width height proj data
          = some { polygonPaths := feats.map (fun f => (f, polygonFill data f.id))
                   labels := feats.map (fun f => f.id)
                   markers := islandMarkers proj data }) := by
  constructor
  · intro h
    simp [renderMap, h]
  · intro hw hh
    simp [renderMap, hw, hh]

/-- C9 witness: at width 0 nothing is drawn even though a feature
is available. -/
theorem renderMap_viewport_guard_witness :
    renderMap (some [({ id := "SEN", geometry := 0 } : GeoFeature Nat)])
        0 100 (fun q => q) []
      = some { polygonPaths := [], labels := [], markers := [] } :=
  (renderMap_viewport_guard Nat [{ id := "SEN", geometry := 0 }]
      0 100 (fun q => q) []).1 (Or.inl rfl)

/-- C10: normalization is not injective — the distinct raw codes KM
and MYT both normalize to COM — so a topology carrying both yields
two distinct retained features with the same canonical identifier,
with no deduplication. -/
theorem normalizeId_collision_no_dedup :
    normalizeId "KM" = "COM" ∧ normalizeId "MYT" = "COM" ∧
    ("KM" : String) ≠ "MYT" ∧
    filterTopology [{ id := "KM", geometry := 0 },
        { id := "MYT", geometry := 1 }] ["COM"]
      = ([{ id := "COM", geometry := 0 }, { id := "COM", geometry := 1 }]
          : List (GeoFeature Nat)) :=
  ⟨by decide, by decide, by decide, by decide⟩

end Geodetic
